import Mathlib

/-!
Shallow embedding of the diabetes-prediction inference pipeline of this
repository, centred on `DiabetesPredictor.predict_diabetes` in
`Diabetes predection/diabetes.py` (the fully validated variant), with the
sibling variants `predicator.py` and `diabetes.py` embedded where the claims
cite them.  Probabilities and numeric fields are modelled as exact rationals;
Python dicts as association lists; fallible library calls (scaler transform,
classifier inference) as `Except`-valued functions supplied in a bundle.
-/

namespace Diabetes

/-- A Python value that may appear in an input record: a number or a string.
Python `float(...)` parsing of numeric strings is not modelled: numeric
inputs are represented with `PyVal.num`, and a string in a numeric field is
treated as unparseable. -/
inductive PyVal where
  | num (q : ℚ)
  | str (s : String)
deriving DecidableEq

/-- Python `str(v)` for the values we model. -/
def pyToStr : PyVal → String
  | .num q => toString q
  | .str s => s

/-- Python `float(v)` (see `PyVal` for the modelling scope). -/
def pyToFloat : PyVal → Option ℚ
  | .num q => some q
  | .str _ => none

/-- Dict lookup `d[f]` returning `none` when the key is absent. -/
def lookupField (d : List (String × PyVal)) (f : String) : Option PyVal :=
  (d.find? (fun kv => kv.1 == f)).map (·.2)

/-- Lookup in a string-keyed numeric mapping (a Python dict of codes). -/
def lookupCode (m : List (String × ℚ)) (k : String) : Option ℚ :=
  (m.find? (fun kv => kv.1 == k)).map (·.2)

/-- The `risk_category` band: the expression
`"High" if prob > 0.7 else ("Medium" if prob > 0.3 else "Low")` of
`predict_diabetes`. -/
def risk_category (p : ℚ) : String :=
  if p > 7/10 then "High" else if p > 3/10 then "Medium" else "Low"

/-- The `confidence` band: the expression
`"High" if prob > 0.8 or prob < 0.2 else "Medium"` of `predict_diabetes`. -/
def confidence (p : ℚ) : String :=
  if p > 8/10 ∨ p < 2/10 then "High" else "Medium"

/-- Round to the nearest integer, ties to even (Python `round` semantics,
taken over exact rationals). -/
def roundHalfToEven (q : ℚ) : ℤ :=
  if q - ⌊q⌋ < 1/2 then ⌊q⌋
  else if q - ⌊q⌋ > 1/2 then ⌊q⌋ + 1
  else if ⌊q⌋ % 2 = 0 then ⌊q⌋ else ⌊q⌋ + 1

/-- Python `round(x, 2)` over exact rationals. -/
def pyRound2 (q : ℚ) : ℚ := (roundHalfToEven (q * 100) : ℚ) / 100

/-- ASCII whitespace test, the characters Python `str.strip()` removes that
occur in our modelling scope. -/
def isSpaceChar (c : Char) : Bool := c = ' ' ∨ c = '\t' ∨ c = '\n' ∨ c = '\r'

/-- Drop leading whitespace characters. -/
def dropLeadingSpace : List Char → List Char
  | [] => []
  | c :: cs => if isSpaceChar c then dropLeadingSpace cs else c :: cs

/-- Python `str.strip()` (ASCII whitespace). -/
def pyStrip (s : String) : String :=
  ⟨(dropLeadingSpace (dropLeadingSpace s.data.reverse).reverse)⟩

/-- Python `str.lower()` (ASCII case folding, which covers the category
vocabulary of this repository). -/
def pyLower (s : String) : String := ⟨s.data.map Char.toLower⟩

/-- Embedding of `str(value).strip().lower()`: the normalisation `predict_diabetes` in
`Diabetes predection/diabetes.py` applies to `gender` and `smoking_history`
before validation and encoding. -/
def normalizeCat (v : PyVal) : String := pyLower (pyStrip (pyToStr v))

/-- The list `self.valid_genders` of `Diabetes predection/diabetes.py`. -/
def valid_genders : List String := ["female", "male", "other"]

/-- The list `self.valid_smoking_values` of `Diabetes predection/diabetes.py`. -/
def valid_smoking_values : List String :=
  ["never", "not current", "current", "no info", "ever", "former"]

/-- The dict `self.gender_mapping` of `Diabetes predection/diabetes.py`. -/
def gender_mapping : List (String × ℚ) :=
  [("female", 0), ("male", 1), ("other", 2)]

/-- The dict `self.smoking_mapping` of `Diabetes predection/diabetes.py`. -/
def smoking_mapping : List (String × ℚ) :=
  [("never", 0), ("not current", 1), ("current", 2),
   ("no info", 3), ("ever", 4), ("former", 5)]

/-- The list `required_fields` of `predict_diabetes` in
`Diabetes predection/diabetes.py`. -/
def required_fields : List String :=
  ["gender", "age", "bmi", "smoking_history", "hbA1c_level", "blood_glucose_level"]

/-- The dict `self.training_medians` once recorded: one median per zero-sentinel
column `bmi`, `hbA1c_level`, `blood_glucose_level`. -/
structure Medians where
  bmi : ℚ
  hbA1c_level : ℚ
  blood_glucose_level : ℚ
deriving DecidableEq

/-- The predictor state `predict_diabetes` reads: the `is_trained` flag,
the persisted `feature_names` order and the persisted `training_medians`. -/
structure PredictorState where
  is_trained : Bool
  feature_names : List String
  training_medians : Medians

/-- The fitted scaler and classifier, modelled as fallible functions: an
`Except.error` is a Python exception raised by the library call.  The scaler
receives one cell per feature name, `none` standing for a NaN produced by
`reindex` for a feature absent from the input row. -/
structure Bundle where
  transform : List (Option ℚ) → Except String (List ℚ)
  predictClass : List ℚ → Except String ℤ
  predictProbaPos : List ℚ → Except String ℚ

/-- The list comprehension
`[f for f in required_fields if f not in user_input]`. -/
def missingFields (input : List (String × PyVal)) : List String :=
  required_fields.filter (fun f => (lookupField input f).isNone)

/-- The single-row DataFrame literal of `predict_diabetes`
(`Diabetes predection/diabetes.py`): encoded categorical codes plus the
validated numerics, with exact zero replaced by the training median in the
three zero-sentinel columns. -/
def buildRow (g s age bmi hbA1c glucose : ℚ) (med : Medians) :
    List (String × ℚ) :=
  [("gender", g),
   ("age", age),
   ("bmi", if bmi ≠ 0 then bmi else med.bmi),
   ("smoking_history", s),
   ("hbA1c_level", if hbA1c ≠ 0 then hbA1c else med.hbA1c_level),
   ("blood_glucose_level", if glucose ≠ 0 then glucose else med.blood_glucose_level)]

/-- Embedding of `df.reindex(columns=self.feature_names)`: one cell per feature name, in
order; a name absent from the row becomes NaN (`none`). -/
def reindexColumns (row : List (String × ℚ)) (names : List String) :
    List (Option ℚ) :=
  names.map (fun f => lookupCode row f)

/-- The result dict of `predict_diabetes`: either an `{"error": msg}` payload
or the success payload with its four keys. -/
inductive PredictResult where
  | error (msg : String)
  | ok (prediction : String) (probability : ℚ) (confidence : String)
      (risk_category : String)
deriving DecidableEq

/-- The VALIDATION and BUILD CLEAN DATAFRAME sections of `predict_diabetes`
(`Diabetes predection/diabetes.py`): missing-field check, categorical
validation after normalisation, numeric conversion, encoding, imputation and
reindexing.  Quoting of offending values in the two invalid-category
messages is simplified; the mapping lookups after validation cannot fail
(the valid lists equal the mapping keys), the `KeyError` branch embeds the
enclosing `except` of the build section. -/
def validateAndBuild (st : PredictorState) (input : List (String × PyVal)) :
    Except String (List (Option ℚ)) :=
  let missing := missingFields input
  if missing.isEmpty = false then
    .error ("Missing fields: " ++ String.intercalate ", " missing)
  else
    let genderRaw := (lookupField input "gender").getD (.str "")
    let gender := normalizeCat genderRaw
    if valid_genders.contains gender = false then
      .error ("Invalid gender " ++ pyToStr genderRaw ++ ". Allowed: " ++
        String.intercalate ", " valid_genders)
    else
      let smokingRaw := (lookupField input "smoking_history").getD (.str "")
      let smoking := normalizeCat smokingRaw
      if valid_smoking_values.contains smoking = false then
        .error ("Invalid smoking history " ++ pyToStr smokingRaw ++
          ". Allowed: " ++ String.intercalate ", " valid_smoking_values)
      else
        match pyToFloat ((lookupField input "age").getD (.str "")) with
        | none => .error "Field age must be a number."
        | some age =>
        match pyToFloat ((lookupField input "bmi").getD (.str "")) with
        | none => .error "Field bmi must be a number."
        | some bmi =>
        match pyToFloat ((lookupField input "hbA1c_level").getD (.str "")) with
        | none => .error "Field hbA1c_level must be a number."
        | some hbA1c =>
        match pyToFloat ((lookupField input "blood_glucose_level").getD (.str "")) with
        | none => .error "Field blood_glucose_level must be a number."
        | some glucose =>
        match lookupCode gender_mapping gender, lookupCode smoking_mapping smoking with
        | some g, some s =>
            .ok (reindexColumns (buildRow g s age bmi hbA1c glucose
                  st.training_medians) st.feature_names)
        | _, _ => .error "Input preparation failed: KeyError"

/-- Embedding of `predict_diabetes` of `Diabetes predection/diabetes.py`: the trained
check, validation/encoding, then the PREDICT section, whose library
exceptions are caught and rendered as `Prediction failed: ...` payloads. -/
def predict_diabetes (st : PredictorState) (b : Bundle)
    (input : List (String × PyVal)) : PredictResult :=
  if st.is_trained = false then .error "Model not trained or loaded."
  else
    match validateAndBuild st input with
    | .error e => .error e
    | .ok vec =>
      match b.transform vec with
      | .error e => .error ("Prediction failed: " ++ e)
      | .ok scaled =>
        match b.predictClass scaled with
        | .error e => .error ("Prediction failed: " ++ e)
        | .ok pred =>
          match b.predictProbaPos scaled with
          | .error e => .error ("Prediction failed: " ++ e)
          | .ok prob =>
            .ok (if pred = 1 then "Diabetes" else "No Diabetes")
              (pyRound2 (prob * 100)) (confidence prob) (risk_category prob)

/-! ### Embedding of the `predicator.py` variant

`predicator.py`'s `DiabetesPredictor` shares the state shape above but its
category mappings are case-sensitive, its `_clean_data` falls back to the
`Other` / `No Info` codes via `fillna`, and its `predict_diabetes` maps
categories without any fallback, leaving NaN for unknown values. -/

namespace Predicator

/-- The dict `self.gender_mapping` of `predicator.py` (case-sensitive keys). -/
def gender_mapping : List (String × ℚ) :=
  [("Female", 0), ("Male", 1), ("Other", 2)]

/-- The dict `self.smoking_mapping` of `predicator.py` (case-sensitive keys). -/
def smoking_mapping : List (String × ℚ) :=
  [("never", 0), ("not current", 1), ("current", 2),
   ("No Info", 3), ("ever", 4), ("former", 5)]

/-- Embedding of `_clean_data`: `df["gender"].map(self.gender_mapping).fillna(self.gender_mapping["Other"])`,
per cell; the fallback value is the code of `"Other"`, namely `2`. -/
def cleanGenderCode (s : String) : ℚ :=
  (lookupCode gender_mapping s).getD 2

/-- Embedding of `_clean_data`: `df["smoking_history"].map(self.smoking_mapping).fillna(self.smoking_mapping["No Info"])`,
per cell; the fallback value is the code of `"No Info"`, namely `3`. -/
def cleanSmokingCode (s : String) : ℚ :=
  (lookupCode smoking_mapping s).getD 3

/-- Embedding of `predict_diabetes`: `df["gender"].map(self.gender_mapping)` per cell, with
no `fillna`: an unmapped value becomes NaN (`none`).  A numeric cell never
matches the string keys. -/
def mapGenderCell : PyVal → Option ℚ
  | .str s => lookupCode gender_mapping s
  | .num _ => none

/-- Embedding of `predict_diabetes`: `df["smoking_history"].map(self.smoking_mapping)` per
cell, with no `fillna`. -/
def mapSmokingCell : PyVal → Option ℚ
  | .str s => lookupCode smoking_mapping s
  | .num _ => none

/-- Embedding of `df[col].replace(0, median)` per cell: an exact numeric zero becomes the
training median, anything else is untouched. -/
def replace0 (median : ℚ) : PyVal → PyVal
  | .num q => if q = 0 then .num median else .num q
  | .str s => .str s

/-- One cell of the DataFrame after the categorical `map` assignments: the
two mapped columns hold codes-or-NaN, the rest still hold raw values. -/
inductive Cell where
  | mapped (o : Option ℚ)
  | raw (v : PyVal)
deriving DecidableEq

/-- The column transformations `predict_diabetes` applies in place to the
single-row DataFrame: categorical mapping for `gender`/`smoking_history`,
zero-replacement for the three zero-sentinel columns, identity elsewhere. -/
def transformColumn (med : Medians) (k : String) (v : PyVal) : Cell :=
  if k = "gender" then .mapped (mapGenderCell v)
  else if k = "smoking_history" then .mapped (mapSmokingCell v)
  else if k = "bmi" then .raw (replace0 med.bmi v)
  else if k = "hbA1c_level" then .raw (replace0 med.hbA1c_level v)
  else if k = "blood_glucose_level" then .raw (replace0 med.blood_glucose_level v)
  else .raw v

/-- The single-row DataFrame after the in-place column updates. -/
def transformedDF (med : Medians) (input : List (String × PyVal)) :
    List (String × Cell) :=
  input.map (fun kv => (kv.1, transformColumn med kv.1 kv.2))

/-- Column lookup in the transformed DataFrame. -/
def lookupCell (df : List (String × Cell)) (k : String) : Option Cell :=
  (df.find? (fun kv => kv.1 == k)).map (·.2)

/-- Embedding of `astype(float)` on one reindexed cell: reindex NaN and mapped cells pass
through, numeric raw cells convert, string raw cells raise (string-to-float
parsing is outside the modelling scope, see `PyVal`). -/
def astypeCell : Option Cell → Except String (Option ℚ)
  | none => .ok none
  | some (.mapped o) => .ok o
  | some (.raw (.num q)) => .ok (some q)
  | some (.raw (.str _)) => .error "could not convert string to float"

/-- Embedding of `df.reindex(columns=self.feature_names).astype(float)`. -/
def reindexAstype (df : List (String × Cell)) (names : List String) :
    Except String (List (Option ℚ)) :=
  names.mapM (fun f => astypeCell (lookupCell df f))

/-- Embedding of `predict_diabetes` of `predicator.py`: no field validation; a missing
accessed column is a `KeyError` caught by the enclosing `except` (its message
is simplified here); unknown categories silently become NaN and flow on to
the scaler. -/
def predict_diabetes (st : PredictorState) (b : Bundle)
    (input : List (String × PyVal)) : PredictResult :=
  if st.is_trained = false then .error "Model not ready"
  else
    match lookupField input "gender" with
    | none => .error "Prediction failed: KeyError: gender"
    | some _ =>
    match lookupField input "smoking_history" with
    | none => .error "Prediction failed: KeyError: smoking_history"
    | some _ =>
    match lookupField input "bmi", lookupField input "hbA1c_level",
          lookupField input "blood_glucose_level" with
    | some _, some _, some _ =>
      match reindexAstype (transformedDF st.training_medians input) st.feature_names with
      | .error e => .error ("Prediction failed: " ++ e)
      | .ok vec =>
        match b.transform vec with
        | .error e => .error ("Prediction failed: " ++ e)
        | .ok scaled =>
          match b.predictClass scaled with
          | .error e => .error ("Prediction failed: " ++ e)
          | .ok pred =>
            match b.predictProbaPos scaled with
            | .error e => .error ("Prediction failed: " ++ e)
            | .ok prob =>
              .ok (if pred = 1 then "Diabetes" else "No Diabetes")
                (pyRound2 (prob * 100)) (confidence prob) (risk_category prob)
    | _, _, _ => .error "Prediction failed: KeyError"

end Predicator

/-! ### Embedding of the feature-assembly step of the `diabetes.py` variant

`diabetes.py`'s `predict_diabetes` ensures all named features are present by
assigning `0` to any absent column, then selects the columns in
`feature_names` order. -/

namespace DiabetesPy

/-- Embedding of `for feature in self.feature_names: if feature not in input_df.columns:
input_df[feature] = 0` — append a zero-valued column for every named feature
absent from the row. -/
def zeroFillMissing (cols : List (String × ℚ)) (names : List String) :
    List (String × ℚ) :=
  cols ++ (names.filter (fun f => (lookupCode cols f).isNone)).map
    (fun f => (f, (0 : ℚ)))

end DiabetesPy

/-! ### Concrete instances used by witnesses and counterexamples -/

/-- Medians as persisted for the worked scenarios of the development. -/
def demoMedians : Medians :=
  { bmi := 273/10, hbA1c_level := 59/10, blood_glucose_level := 140 }

/-- A trained predictor state over the canonical six-feature order. -/
def demoState : PredictorState :=
  { is_trained := true
    feature_names := required_fields
    training_medians := demoMedians }

/-- A bundle whose classifier selects the positive class with positive-class
probability 3/4 and whose scaler treats NaN cells as zero. -/
def demoBundle : Bundle :=
  { transform := fun v => .ok (v.map (fun o => o.getD 0))
    predictClass := fun _ => .ok 1
    predictProbaPos := fun _ => .ok (3/4) }

/-- A bundle whose scaler transform raises. -/
def failBundle : Bundle :=
  { transform := fun _ => .error "boom"
    predictClass := fun _ => .ok 0
    predictProbaPos := fun _ => .ok 0 }

/-- A bundle whose scaler rejects NaN input, as sklearn's
`StandardScaler.transform` does, and otherwise behaves like `demoBundle`. -/
def nanRejectingBundle : Bundle :=
  { transform := fun v =>
      match v.mapM (fun o => o) with
      | some xs => .ok xs
      | none => .error "Input contains NaN"
    predictClass := fun _ => .ok 1
    predictProbaPos := fun _ => .ok (3/4) }

/-- A complete well-formed input record. -/
def demoInput : List (String × PyVal) :=
  [("gender", .str "female"), ("age", .num 45), ("bmi", .num 28),
   ("smoking_history", .str "never"), ("hbA1c_level", .num (11/2)),
   ("blood_glucose_level", .num 110)]

/-- The record `demoInput` with the `age` field removed. -/
def demoInputNoAge : List (String × PyVal) :=
  [("gender", .str "female"), ("bmi", .num 28),
   ("smoking_history", .str "never"), ("hbA1c_level", .num (11/2)),
   ("blood_glucose_level", .num 110)]

/-- The record `demoInput` with an out-of-set gender value. -/
def unknownGenderInput : List (String × PyVal) :=
  [("gender", .str "Unknown"), ("age", .num 45), ("bmi", .num 28),
   ("smoking_history", .str "never"), ("hbA1c_level", .num 6),
   ("blood_glucose_level", .num 110)]

/-- The encoded vector `validateAndBuild` produces from `demoInput`. -/
def demoVec : List (Option ℚ) :=
  [some 0, some 45, some 28, some 0, some (11/2), some 110]

/-- The vector `demoVec` after `demoBundle`'s scaler. -/
def demoScaled : List ℚ := [0, 45, 28, 0, 11/2, 110]

/-- An encoded row of the `diabetes.py` variant lacking the `bmi` feature. -/
def demoColsNoBmi : List (String × ℚ) :=
  [("gender", 0), ("age", 45), ("smoking_history", 0),
   ("hbA1c_level", 11/2), ("blood_glucose_level", 110)]

end Diabetes

namespace Diabetes

lemma validateAndBuild_demoInput :
    validateAndBuild demoState demoInput = .ok demoVec := by
  norm_num +decide [validateAndBuild, demoState, demoInput, demoVec, demoMedians,
    missingFields, required_fields, lookupField, normalizeCat, pyStrip, pyLower,
    pyToStr, pyToFloat, valid_genders, valid_smoking_values, gender_mapping,
    smoking_mapping, lookupCode, buildRow, reindexColumns, dropLeadingSpace,
    isSpaceChar]

theorem c1_risk_boundary_counterexample :
    risk_category (3/10) = "Low" ∧ risk_category (3/10) ≠ "Medium" := by
  norm_num +decide [risk_category]

theorem c1_risk_boundary_bands :
    risk_category (3/10) = "Low" ∧ risk_category (7/10) = "Medium" := by
  norm_num +decide [risk_category]

theorem c2_confidence_rule :
    (∀ p : ℚ, (confidence p = "High" ↔ p > 8/10 ∨ p < 2/10) ∧
      (confidence p = "Medium" ↔ ¬(p > 8/10 ∨ p < 2/10)) ∧
      confidence p ≠ "Low") ∧
    confidence (19/100) = "High" ∧ confidence (1/2) = "Medium" := by
  refine ⟨fun p => ?_, by norm_num +decide [confidence], by norm_num +decide [confidence]⟩
  unfold confidence
  split_ifs with h <;> simp +decide [h]

theorem c3_zero_imputation (g s age bmi hbA1c glucose : ℚ) (med : Medians) :
    lookupCode (buildRow g s age bmi hbA1c glucose med) "bmi" =
      some (if bmi = 0 then med.bmi else bmi) ∧
    lookupCode (buildRow g s age bmi hbA1c glucose med) "hbA1c_level" =
      some (if hbA1c = 0 then med.hbA1c_level else hbA1c) ∧
    lookupCode (buildRow g s age bmi hbA1c glucose med) "blood_glucose_level" =
      some (if glucose = 0 then med.blood_glucose_level else glucose) := by
  refine ⟨?_, ?_, ?_⟩
  · by_cases h : bmi = 0 <;> simp +decide [buildRow, lookupCode, h]
  · by_cases h : hbA1c = 0 <;> simp +decide [buildRow, lookupCode, h]
  · by_cases h : glucose = 0 <;> simp +decide [buildRow, lookupCode, h]

end Diabetes

namespace Diabetes

theorem c10_band_consistency (p : ℚ) :
    (confidence p = "High" → risk_category p = "High" ∨ risk_category p = "Low") ∧
    (risk_category p = "Medium" → confidence p = "Medium") := by
  unfold confidence risk_category
  split_ifs with h1 h2 h3 <;> constructor <;> intro h <;>
    first
      | rfl
      | (left; rfl)
      | (right; rfl)
      | (exact absurd h (by decide))
      | (rcases h1 with h1a | h1a <;> linarith)

theorem c10_band_consistency_witness :
    (risk_category (9/10) = "High" ∨ risk_category (9/10) = "Low") ∧
    confidence (1/2) = "Medium" :=
  ⟨(c10_band_consistency (9/10)).1 (by norm_num [confidence]),
   (c10_band_consistency (1/2)).2 (by norm_num [risk_category])⟩

theorem c9_scenario_d (st : PredictorState) (b : Bundle)
    (input : List (String × PyVal)) (vec : List (Option ℚ)) (scaled : List ℚ)
    (ht : st.is_trained = true)
    (hv : validateAndBuild st input = .ok vec)
    (htr : b.transform vec = .ok scaled)
    (hc : b.predictClass scaled = .ok 1)
    (hp : b.predictProbaPos scaled = .ok (3/4)) :
    predict_diabetes st b input = .ok "Diabetes" 75 "Medium" "High" := by
  simp only [predict_diabetes, ht, Bool.true_eq_false, if_false, hv, htr, hc, hp]
  norm_num [pyRound2, roundHalfToEven, confidence, risk_category]

theorem c9_scenario_d_witness :
    predict_diabetes demoState demoBundle demoInput = .ok "Diabetes" 75 "Medium" "High" :=
  c9_scenario_d demoState demoBundle demoInput demoVec demoScaled rfl
    validateAndBuild_demoInput rfl rfl rfl


theorem c4_case_insensitive_categories :
    (∀ v : String, pyLower (pyStrip v) ∈ valid_genders →
      ∃ c, lookupCode gender_mapping (normalizeCat (.str v)) = some c ∧
        lookupCode gender_mapping (normalizeCat (.str (pyLower (pyStrip v)))) = some c) ∧
    (∀ v : String, pyLower (pyStrip v) ∈ valid_smoking_values →
      ∃ c, lookupCode smoking_mapping (normalizeCat (.str v)) = some c ∧
        lookupCode smoking_mapping (normalizeCat (.str (pyLower (pyStrip v)))) = some c) := by
  refine ⟨fun v hv => ?_, fun v hv => ?_⟩
  · simp only [valid_genders, List.mem_cons, List.not_mem_nil, or_false] at hv
    rcases hv with h | h | h <;>
      exact ⟨_, by simp only [normalizeCat, pyToStr]; rw [h]; rfl, by rw [h]; rfl⟩
  · simp only [valid_smoking_values, List.mem_cons, List.not_mem_nil, or_false] at hv
    rcases hv with h | h | h | h | h | h <;>
      exact ⟨_, by simp only [normalizeCat, pyToStr]; rw [h]; rfl, by rw [h]; rfl⟩

theorem c4_case_insensitive_categories_witness :
    ∃ c, lookupCode smoking_mapping (normalizeCat (.str "CURRENT")) = some c ∧
      lookupCode smoking_mapping (normalizeCat (.str (pyLower (pyStrip "CURRENT")))) = some c :=
  c4_case_insensitive_categories.2 "CURRENT" (by decide)

end Diabetes

namespace Diabetes

theorem c5_missing_field_fail_fast (st : PredictorState) (b b2 : Bundle)
    (input : List (String × PyVal)) (f : String)
    (ht : st.is_trained = true) (hf : f ∈ required_fields)
    (hmiss : lookupField input f = none) :
    predict_diabetes st b input =
      .error ("Missing fields: " ++ String.intercalate ", " (missingFields input)) ∧
    f ∈ missingFields input ∧
    predict_diabetes st b input = predict_diabetes st b2 input := by
  have hmem : f ∈ missingFields input := by
    unfold missingFields
    refine List.mem_filter.mpr ⟨hf, ?_⟩
    simp [hmiss]
  have hne : missingFields input ≠ [] := List.ne_nil_of_mem hmem
  have hie : (missingFields input).isEmpty = false := by
    cases hl : missingFields input with
    | nil => exact absurd hl hne
    | cons a t => rfl
  refine ⟨?_, hmem, ?_⟩
  · simp [predict_diabetes, ht, validateAndBuild, hie]
  · simp [predict_diabetes, ht, validateAndBuild, hie]

theorem c5_missing_field_fail_fast_witness :
    predict_diabetes demoState demoBundle demoInputNoAge =
      .error ("Missing fields: " ++ String.intercalate ", " (missingFields demoInputNoAge)) ∧
    "age" ∈ missingFields demoInputNoAge ∧
    predict_diabetes demoState demoBundle demoInputNoAge =
      predict_diabetes demoState failBundle demoInputNoAge :=
  c5_missing_field_fail_fast demoState demoBundle failBundle demoInputNoAge "age" rfl
    (by decide) rfl

theorem c8_exception_boundary (st : PredictorState) (b : Bundle)
    (input : List (String × PyVal)) :
    ((∃ msg, predict_diabetes st b input = .error msg) ∨
      (∃ l pr c r, predict_diabetes st b input = .ok l pr c r)) ∧
    (∀ vec e, st.is_trained = true → validateAndBuild st input = .ok vec →
      b.transform vec = .error e →
      predict_diabetes st b input = .error ("Prediction failed: " ++ e)) ∧
    (∀ vec scaled e, st.is_trained = true → validateAndBuild st input = .ok vec →
      b.transform vec = .ok scaled → b.predictClass scaled = .error e →
      predict_diabetes st b input = .error ("Prediction failed: " ++ e)) := by
  refine ⟨?_, ?_, ?_⟩
  · cases h : predict_diabetes st b input with
    | error m => exact .inl ⟨m, rfl⟩
    | ok l pr c r => exact .inr ⟨l, pr, c, r, rfl⟩
  · intro vec e ht hv htr
    simp [predict_diabetes, ht, hv, htr]
  · intro vec scaled e ht hv htr hc
    simp [predict_diabetes, ht, hv, htr, hc]

theorem c8_exception_boundary_witness :
    predict_diabetes demoState failBundle demoInput =
      .error ("Prediction failed: " ++ "boom") :=
  (c8_exception_boundary demoState failBundle demoInput).2.1 demoVec "boom" rfl
    validateAndBuild_demoInput rfl

end Diabetes

namespace Diabetes

lemma lookupCode_append_of_none (l1 l2 : List (String × ℚ)) (k : String)
    (h : lookupCode l1 k = none) :
    lookupCode (l1 ++ l2) k = lookupCode l2 k := by
  induction l1 with
  | nil => rfl
  | cons kv t ih =>
    cases hk : (kv.1 == k) with
    | true =>
      simp only [lookupCode, List.find?_cons, hk] at h
      simp at h
    | false =>
      simp only [lookupCode, List.cons_append, List.find?_cons, hk] at h ⊢
      exact ih h

lemma lookupCode_map_zero (l : List String) (f : String) (h : f ∈ l) :
    lookupCode (l.map (fun g => (g, (0 : ℚ)))) f = some 0 := by
  induction l with
  | nil => cases h
  | cons g t ih =>
    cases hg : (g == f) with
    | true =>
      simp only [lookupCode, List.map_cons, List.find?_cons, hg]
      rfl
    | false =>
      have h1 : f ∈ t := by
        rcases List.mem_cons.mp h with h2 | h2
        · subst h2
          simp at hg
        · exact h2
      simp only [lookupCode, List.map_cons, List.find?_cons, hg]
      exact ih h1

theorem c6_zero_fill_counterexample :
    lookupCode (DiabetesPy.zeroFillMissing demoColsNoBmi required_fields) "bmi" = some 0 ∧
    reindexColumns (DiabetesPy.zeroFillMissing demoColsNoBmi required_fields) required_fields =
      [some 0, some 45, some 0, some 0, some (11/2), some 110] :=
  ⟨rfl, rfl⟩

theorem c6_zero_fill_amended (cols : List (String × ℚ)) (names : List String)
    (f : String) (hf : f ∈ names) (hnone : lookupCode cols f = none) :
    lookupCode (DiabetesPy.zeroFillMissing cols names) f = some 0 := by
  unfold DiabetesPy.zeroFillMissing
  rw [lookupCode_append_of_none _ _ _ hnone]
  refine lookupCode_map_zero _ _ (List.mem_filter.mpr ⟨hf, ?_⟩)
  simp [hnone]

theorem c6_zero_fill_amended_witness :
    lookupCode (DiabetesPy.zeroFillMissing demoColsNoBmi required_fields) "bmi" = some 0 :=
  c6_zero_fill_amended demoColsNoBmi required_fields "bmi" (by decide) rfl

theorem c7_fallback_counterexample :
    Predicator.mapGenderCell (.str "Unknown") = none ∧
    Predicator.predict_diabetes demoState nanRejectingBundle unknownGenderInput =
      .error "Prediction failed: Input contains NaN" :=
  ⟨rfl, rfl⟩

theorem c7_fallback_amended :
    (∀ s : String, lookupCode Predicator.gender_mapping s = none →
      Predicator.cleanGenderCode s = 2 ∧ Predicator.mapGenderCell (.str s) = none) ∧
    (∀ s : String, lookupCode Predicator.smoking_mapping s = none →
      Predicator.cleanSmokingCode s = 3 ∧ Predicator.mapSmokingCell (.str s) = none) := by
  refine ⟨fun s h => ⟨?_, ?_⟩, fun s h => ⟨?_, ?_⟩⟩
  · unfold Predicator.cleanGenderCode
    rw [h]
    rfl
  · exact h
  · unfold Predicator.cleanSmokingCode
    rw [h]
    rfl
  · exact h

theorem c7_fallback_amended_witness :
    Predicator.cleanGenderCode "Unknown" = 2 ∧
    Predicator.mapGenderCell (.str "Unknown") = none :=
  c7_fallback_amended.1 "Unknown" rfl

end Diabetes
